import Mathlib

/-!
Shallow embedding of the sprite-sheet animation engine (class `SpriteAnimator`
in `js/animation.js`).  The mutable instance fields of the class become a Lean
structure `AnimState`; each method becomes a pure function from state to state
(or to `Bool × AnimState` when the method returns a success flag, or to
`Option AnimState` when the method can throw).  JavaScript number arithmetic
is modelled over `ℚ` (exact rational arithmetic) where the source divides
timestamps or pixel counts, and over `ℤ` where the source works with integer
pixel counts and frame indices; the JavaScript `%` operator on integers is
truncated remainder, `Int.tmod`.
-/

namespace Frames

/-- One candidate layout built inside `findBestGridLayout`:
`{cols, rows, frameW, frameH, aspectRatio, score}`.  The aspect field keeps the
source's exact quotient; the score is `cols * 2` plus a bonus of `10` when the
aspect lies strictly between `0.1` and `3`. -/
structure GridCandidate where
  cols : Int
  rows : Int
  frameW : ℚ
  frameH : ℚ
  aspect : ℚ
  score : Int
  deriving Repr, DecidableEq

/-- A source rectangle `{sx, sy, frameWidth, frameHeight}` as computed by
`render` before `drawImage`. -/
structure Rect where
  x : Int
  y : Int
  w : Int
  h : Int
  deriving Repr, DecidableEq

/-- The instance state of `SpriteAnimator`.  `sheetWidth`/`sheetHeight` are
`spriteImage.width`/`spriteImage.height`; `animationId` is the nullable
`requestAnimationFrame` handle; the remaining fields carry the constructor
fields of the same names. -/
structure AnimState where
  sheetWidth : Int
  sheetHeight : Int
  frameWidth : Int
  frameHeight : Int
  totalFrames : Int
  framesPerRow : Int
  framesPerCol : Int
  currentFrame : Int
  isPlaying : Bool
  fps : ℚ
  frameInterval : ℚ
  lastFrameTime : ℚ
  actualFps : Int
  frameCount : Int
  fpsLastTime : ℚ
  animationId : Option Nat
  offsetX : Int
  offsetY : Int
  spacingX : Int
  spacingY : Int
  autoDetect : Bool
  canvasWidth : Int
  canvasHeight : Int
  deriving Repr, DecidableEq

/-- JavaScript `%` on (possibly fractional) numbers: the remainder of division
truncated toward zero, `a - b * trunc (a / b)`. -/
def jsMod (a b : ℚ) : ℚ :=
  a - b * (if 0 ≤ a / b then (⌊a / b⌋ : ℚ) else (⌈a / b⌉ : ℚ))

/-- JavaScript `Math.round`: floor of the argument plus one half. -/
def jsRound (q : ℚ) : Int := ⌊q + 1 / 2⌋

/-- The candidate list built by the loop in `findBestGridLayout`: for each
`cols` from `1` to `totalFrames` with `totalFrames % cols === 0`, the layout
`cols × rows` with `rows = totalFrames / cols`, frame size
`imgWidth / cols` by `imgHeight / rows` (exact division), aspect ratio
`frameW / frameH`, and score
`cols * 2 + (aspectRatio > 0.1 && aspectRatio < 3 ? 10 : 0)`.
When `totalFrames < 1` the loop body never runs and the list is empty. -/
def gridCandidates (totalFrames imgWidth imgHeight : Int) : List GridCandidate :=
  (List.range totalFrames.toNat).filterMap (fun k =>
    let cols : Int := (k : Int) + 1
    if totalFrames % cols = 0 then
      let rows : Int := totalFrames / cols
      let frameW : ℚ := (imgWidth : ℚ) / (cols : ℚ)
      let frameH : ℚ := (imgHeight : ℚ) / (rows : ℚ)
      let aspect : ℚ := frameW / frameH
      some { cols := cols, rows := rows, frameW := frameW, frameH := frameH
             aspect := aspect
             score := cols * 2 + (if 0.1 < aspect ∧ aspect < 3 then 10 else 0) }
    else none)

/-- The tail of `findBestGridLayout`:
`layouts.sort((a, b) => b.score - a.score)` followed by `layouts[0]`.
JavaScript `Array.prototype.sort` is stable, so the head of the descending
sort is the first candidate of maximal score in enumeration order, which the
fold below computes (it replaces the running best only on a strictly larger
score).  An empty list gives `none`, modelling `layouts[0] === undefined`. -/
def chooseBest : List GridCandidate → Option GridCandidate
  | [] => none
  | c :: cs => some (cs.foldl (fun best l => if best.score < l.score then l else best) c)

/-- The method `findBestGridLayout(totalFrames, imgWidth, imgHeight)`. -/
def findBestGridLayout (totalFrames imgWidth imgHeight : Int) : Option GridCandidate :=
  chooseBest (gridCandidates totalFrames imgWidth imgHeight)

/-- The method `detectSpriteLayout()`: runs `findBestGridLayout` on the sheet
dimensions and the current `totalFrames`, then stores `cols`, `rows`,
`Math.floor(imgWidth / cols)` and `Math.floor(imgHeight / rows)` and resizes
the canvas to one frame.  When `findBestGridLayout` produces no candidate
(`totalFrames < 1`), the source dereferences `undefined`
(`bestLayout.cols`) and throws a `TypeError` before any assignment; that
uncaught exception is modelled as `none`. -/
def detectSpriteLayout (st : AnimState) : Option AnimState :=
  match findBestGridLayout st.totalFrames st.sheetWidth st.sheetHeight with
  | none => none
  | some best =>
      let fw : Int := ⌊(st.sheetWidth : ℚ) / (best.cols : ℚ)⌋
      let fh : Int := ⌊(st.sheetHeight : ℚ) / (best.rows : ℚ)⌋
      some { st with
        framesPerRow := best.cols
        framesPerCol := best.rows
        frameWidth := fw
        frameHeight := fh
        canvasWidth := fw
        canvasHeight := fh }

/-- The method `setFPS(fps)`: clamp with `Math.max(1, Math.min(60, fps))` and
recompute `frameInterval = 1000 / fps`. -/
def setFPS (v : ℚ) (st : AnimState) : AnimState :=
  let f : ℚ := max 1 (min 60 v)
  { st with fps := f, frameInterval := 1000 / f }

/-- The method `pause()`: clear `isPlaying`, and when an animation frame is
pending cancel it and null the handle. -/
def pause (st : AnimState) : AnimState :=
  let st1 := { st with isPlaying := false }
  if st1.animationId.isSome then { st1 with animationId := none } else st1

/-- The method `nextFrame()`:
`currentFrame = (currentFrame + 1) % totalFrames` (JavaScript truncated
remainder), then render and update the display (both draw-only). -/
def nextFrame (st : AnimState) : AnimState :=
  { st with currentFrame := Int.tmod (st.currentFrame + 1) st.totalFrames }

/-- The method `prevFrame()`:
`currentFrame = (currentFrame - 1 + totalFrames) % totalFrames`. -/
def prevFrame (st : AnimState) : AnimState :=
  { st with currentFrame := Int.tmod (st.currentFrame - 1 + st.totalFrames) st.totalFrames }

/-- One invocation of the method `animate()` at wall-clock time `now`, with
`nextId` the handle `requestAnimationFrame` hands back for the re-scheduled
call.  Returns immediately if not playing.  Otherwise: when
`deltaTime >= frameInterval` it advances the frame once modulo `totalFrames`
and sets `lastFrameTime = currentTime - (deltaTime % frameInterval)`;
independently it counts the tick and, once at least `1000` ms have passed
since `fpsLastTime`, publishes
`actualFps = Math.round(frameCount * 1000 / elapsed)` and resets the
measurement window. -/
def animate (now : ℚ) (nextId : Nat) (st : AnimState) : AnimState :=
  if st.isPlaying = false then st
  else
    let deltaTime : ℚ := now - st.lastFrameTime
    let s1 :=
      if st.frameInterval ≤ deltaTime then
        { st with
          currentFrame := Int.tmod (st.currentFrame + 1) st.totalFrames
          lastFrameTime := now - jsMod deltaTime st.frameInterval }
      else st
    let s2 := { s1 with frameCount := s1.frameCount + 1 }
    let s3 :=
      if (1000 : ℚ) ≤ now - s2.fpsLastTime then
        { s2 with
          actualFps := jsRound ((s2.frameCount : ℚ) * 1000 / (now - s2.fpsLastTime))
          frameCount := 0
          fpsLastTime := now }
      else s2
    { s3 with animationId := some nextId }

/-- The source-rectangle computation inside `render()`:
`row = Math.floor(currentFrame / framesPerRow)`,
`col = currentFrame % framesPerRow`,
`sx = offsetX + col * (frameWidth + spacingX)`,
`sy = offsetY + row * (frameHeight + spacingY)`, with the frame size as the
rectangle's extent. -/
def renderRect (st : AnimState) : Rect :=
  let row : Int := ⌊(st.currentFrame : ℚ) / (st.framesPerRow : ℚ)⌋
  let col : Int := Int.tmod st.currentFrame st.framesPerRow
  { x := st.offsetX + col * (st.frameWidth + st.spacingX)
    y := st.offsetY + row * (st.frameHeight + st.spacingY)
    w := st.frameWidth
    h := st.frameHeight }

/-- The method
`setManualGrid(totalFrames, cols, frameWidth, frameHeight, offsetX, offsetY, spacingX, spacingY)`:
if any of the first four parameters is below `1` it returns `false` with the
instance untouched; otherwise it stores the grid with
`framesPerCol = Math.ceil(totalFrames / cols)`, turns auto-detect off,
resizes the canvas, resets `currentFrame` to `0`, and returns `true`. -/
def setManualGrid (totalFrames cols frameWidth frameHeight offsetX offsetY spacingX spacingY : Int)
    (st : AnimState) : Bool × AnimState :=
  if totalFrames < 1 ∨ cols < 1 ∨ frameWidth < 1 ∨ frameHeight < 1 then
    (false, st)
  else
    (true, { st with
      totalFrames := totalFrames
      framesPerRow := cols
      framesPerCol := ⌈(totalFrames : ℚ) / (cols : ℚ)⌉
      frameWidth := frameWidth
      frameHeight := frameHeight
      offsetX := offsetX
      offsetY := offsetY
      spacingX := spacingX
      spacingY := spacingY
      autoDetect := false
      canvasWidth := frameWidth
      canvasHeight := frameHeight
      currentFrame := 0 })

/-- The method `triggerAutoDetect()`: set the auto-detect flag and rerun
`detectSpriteLayout` (then render and refresh the info panel, both
draw-only). -/
def triggerAutoDetect (st : AnimState) : Option AnimState :=
  detectSpriteLayout { st with autoDetect := true }

/-- A concrete instance state for test scenarios: a sheet of the given
dimensions with the given frame count and the constructor's defaults
(`framesPerRow = 4`, `framesPerCol = 2`, `currentFrame = 0`, paused,
`fps = 24`, no offsets or spacing, auto-detect on). -/
def mkState (w h tf : Int) : AnimState :=
  { sheetWidth := w, sheetHeight := h
    frameWidth := 0, frameHeight := 0
    totalFrames := tf
    framesPerRow := 4, framesPerCol := 2
    currentFrame := 0
    isPlaying := false
    fps := 24, frameInterval := 1000 / 24
    lastFrameTime := 0
    actualFps := 0, frameCount := 0, fpsLastTime := 0
    animationId := none
    offsetX := 0, offsetY := 0, spacingX := 0, spacingY := 0
    autoDetect := true
    canvasWidth := 0, canvasHeight := 0 }

/-- The state of scenario D: a playing animator on the default 1024x512 sheet
with `targetFps = 1`, so `frameInterval = 1000`, with the phase origin
`lastFrameTime = 0`. -/
def stC3 : AnimState :=
  { mkState 1024 512 8 with isPlaying := true, fps := 1, frameInterval := 1000 }

/-- A state on a 600x200 sheet with six frames whose current frame index is
`1`, used to probe what a layout change does to a still-in-range index. -/
def stC7 : AnimState := { mkState 600 200 6 with currentFrame := 1 }

/-- A state with eight frames sitting on the last frame index `7`, used to
probe the wrap-around of the stepping operations. -/
def stC8 : AnimState := { mkState 80 80 8 with currentFrame := 7 }

/-- Floor of an exact rational quotient of integers with a positive divisor is
integer floor division.  Bridges `Math.floor(a / c)` on exact arithmetic to
`Int` division. -/
theorem floor_int_div (a c : ℤ) (hc : 0 < c) : ⌊(a : ℚ) / (c : ℚ)⌋ = a / c := by
  have hc' : ((c.toNat : ℤ)) = c := Int.toNat_of_nonneg hc.le
  rw [show ((c : ℚ)) = ((c.toNat : ℕ) : ℚ) from by exact_mod_cast hc'.symm,
    Rat.floor_intCast_div_natCast, hc']

/-- The validation of `setManualGrid` succeeds exactly when all of
`totalFrames`, `cols`, `frameWidth`, `frameHeight` are at least `1`. -/
theorem setManualGrid_succeeds_iff (tf c fw fh ox oy sx sy : Int) (st : AnimState) :
    (setManualGrid tf c fw fh ox oy sx sy st).1 = true ↔
      (1 ≤ tf ∧ 1 ≤ c ∧ 1 ≤ fw ∧ 1 ≤ fh) := by
  rw [setManualGrid]
  split
  · next hcon => simp; omega
  · next hcon => simp; push_neg at hcon; omega

/-- Evaluation of the grid search on the default sheet: for `totalFrames = 8`
on a 1024x512 image the maximal score is `26`, attained by the eight-column,
one-row layout (score `2 * 8 + 10`, since its frame aspect `128 / 512 = 1 / 4`
earns the bonus), which beats the 4x2 layout's `2 * 4 + 10 = 18`. -/
theorem findBestGridLayout_eight :
    findBestGridLayout 8 1024 512 =
      some { cols := 8, rows := 1, frameW := 128, frameH := 512, aspect := 1/4, score := 26 } := by
  rw [findBestGridLayout, gridCandidates, show Int.toNat 8 = 8 from rfl]
  norm_num [List.range_succ, List.filterMap_append, List.filterMap_cons, chooseBest]

/-- Concrete source-rectangle helper, shared by the frame-geometry claim: for
a successful `setManualGrid` and any frame index, the rectangle computed by
`render` follows the offset/spacing grid formula. -/
theorem renderRect_after_setManualGrid (st : AnimState) (tf c fw fh ox oy sx sy i : Int)

    (hs : (setManualGrid tf c fw fh ox oy sx sy st).1 = true)
    (h0 : 0 ≤ i) (_hi : i < tf) :
    renderRect { (setManualGrid tf c fw fh ox oy sx sy st).2 with currentFrame := i } =
      { x := ox + i % c * (fw + sx), y := oy + i / c * (fh + sy), w := fw, h := fh } := by
  have hv : ¬(tf < 1 ∨ c < 1 ∨ fw < 1 ∨ fh < 1) := by
    intro hcon
    rw [setManualGrid, if_pos hcon] at hs
    exact absurd hs (by simp)
  have hc : 0 < c := by push_neg at hv; omega
  rw [setManualGrid, if_neg hv]
  simp only [renderRect]
  rw [floor_int_div i c hc, Int.tmod_eq_emod h0 hc.le]

/-- C1 counterexample: on the 1024x512 sheet with `totalFrames = 8`, the
auto-detection does NOT produce the 4x2 grid of 256x256 frames that the claim
states. -/
theorem C1_counterexample :
    (detectSpriteLayout (mkState 1024 512 8)).map
        (fun s => (s.framesPerRow, s.framesPerCol, s.frameWidth, s.frameHeight)) ≠
      some (4, 2, 256, 256) := by
  rw [detectSpriteLayout, show (mkState 1024 512 8).totalFrames = 8 from rfl,
    show (mkState 1024 512 8).sheetWidth = 1024 from rfl,
    show (mkState 1024 512 8).sheetHeight = 512 from rfl, findBestGridLayout_eight]
  norm_num

/-- C1 (amended): auto-detection on a 1024x512 sheet with `totalFrames = 8`
returns `columns = 8`, `rows = 1`, `frameWidth = 128`, `frameHeight = 512`:
the scoring `2 * cols` plus a bonus of `10` when `0.1 < aspect < 3` makes the
single-row eight-column layout (score `26`) beat the 4x2 layout (score `18`),
because the 8x1 frame aspect `1/4` still earns the bonus. -/
theorem C1_detect_layout_eight_frames :
    (detectSpriteLayout (mkState 1024 512 8)).map
        (fun s => (s.framesPerRow, s.framesPerCol, s.frameWidth, s.frameHeight)) =
      some (8, 1, 128, 512) := by
  rw [detectSpriteLayout, show (mkState 1024 512 8).totalFrames = 8 from rfl,
    show (mkState 1024 512 8).sheetWidth = 1024 from rfl,
    show (mkState 1024 512 8).sheetHeight = 512 from rfl, findBestGridLayout_eight]
  norm_num

/-- C2: for every successfully applied manual grid and every frame index
`i` in `[0, totalFrames)`, the source rectangle computed by `render` is
`x = offsetX + (i mod columns) * (frameWidth + spacingX)`,
`y = offsetY + (i div columns) * (frameHeight + spacingY)` with extent
`frameWidth` by `frameHeight`; in particular after
`setManualGrid(6, 3, 100, 100, 0, 0, 0, 0)` frame `5` maps to
`{x = 200, y = 100, w = 100, h = 100}`, and the state right after a
successful apply (whose frame index is `0`) maps to
`{offsetX, offsetY, frameWidth, frameHeight}`. -/
theorem C2_frameRect :
    (∀ (st : AnimState) (tf c fw fh ox oy sx sy i : Int),
        (setManualGrid tf c fw fh ox oy sx sy st).1 = true → 0 ≤ i → i < tf →
        renderRect { (setManualGrid tf c fw fh ox oy sx sy st).2 with currentFrame := i } =
          { x := ox + i % c * (fw + sx), y := oy + i / c * (fh + sy), w := fw, h := fh }) ∧
    renderRect { (setManualGrid 6 3 100 100 0 0 0 0 (mkState 600 200 6)).2 with
        currentFrame := 5 } = { x := 200, y := 100, w := 100, h := 100 } ∧
    (∀ (st : AnimState) (tf c fw fh ox oy sx sy : Int),
        (setManualGrid tf c fw fh ox oy sx sy st).1 = true →
        renderRect (setManualGrid tf c fw fh ox oy sx sy st).2 =
          { x := ox, y := oy, w := fw, h := fh }) := by
  refine ⟨fun st tf c fw fh ox oy sx sy i hs h0 hi =>
      renderRect_after_setManualGrid st tf c fw fh ox oy sx sy i hs h0 hi, ?_, ?_⟩
  · rw [setManualGrid]
    norm_num [renderRect, Int.tmod]
  · intro st tf c fw fh ox oy sx sy hs
    have hv : ¬(tf < 1 ∨ c < 1 ∨ fw < 1 ∨ fh < 1) := by
      intro hcon
      rw [setManualGrid, if_pos hcon] at hs
      exact absurd hs (by simp)
    rw [setManualGrid, if_neg hv]
    simp only [renderRect]
    norm_num [Int.zero_tmod]

/-- C2 witness: the general rectangle law applied to the concrete grid of
scenario C, `setManualGrid(6, 3, 100, 100, 0, 0, 0, 0)` at frame index `5`. -/
theorem C2_frameRect_witness :
    ((setManualGrid 6 3 100 100 0 0 0 0 (mkState 600 200 6)).1 = true) ∧ (0 : Int) ≤ 5 ∧
      ((5 : Int) < 6) ∧
      renderRect { (setManualGrid 6 3 100 100 0 0 0 0 (mkState 600 200 6)).2 with
          currentFrame := 5 } =
        { x := 0 + 5 % 3 * (100 + 0), y := 0 + 5 / 3 * (100 + 0), w := 100, h := 100 } :=
  ⟨by decide, by decide, by decide,
    C2_frameRect.1 (mkState 600 200 6) 6 3 100 100 0 0 0 0 5 (by decide) (by decide) (by decide)⟩

/-- C3: whenever `animate` runs on a playing state with
`delta = now - lastFrameTime`: if `delta` has reached `frameInterval` the
frame advances by exactly one step modulo `totalFrames` and
`lastFrameTime` becomes `now - (delta mod frameInterval)`; otherwise both are
unchanged.  The scenario conjuncts run the tick sequence of scenario D with
`frameInterval = 1000` and ticks at `t = 0, 16, 1001, 1990`: the frame
advances exactly once, at `t = 1001`, leaving `lastFrameTime = 1000`. -/
theorem C3_onTick :
    (∀ (st : AnimState) (now delta : ℚ) (nid : Nat),
        st.isPlaying = true → now - st.lastFrameTime = delta →
        ((st.frameInterval ≤ delta →
            (animate now nid st).currentFrame = Int.tmod (st.currentFrame + 1) st.totalFrames ∧
            (animate now nid st).lastFrameTime = now - jsMod delta st.frameInterval) ∧
         (delta < st.frameInterval →
            (animate now nid st).currentFrame = st.currentFrame ∧
            (animate now nid st).lastFrameTime = st.lastFrameTime))) ∧
    ((animate 0 1 stC3).currentFrame = 0 ∧
     (animate 0 1 stC3).lastFrameTime = 0 ∧
     (animate 16 2 (animate 0 1 stC3)).currentFrame = 0 ∧
     (animate 16 2 (animate 0 1 stC3)).lastFrameTime = 0 ∧
     (animate 1001 3 (animate 16 2 (animate 0 1 stC3))).currentFrame = 1 ∧
     (animate 1001 3 (animate 16 2 (animate 0 1 stC3))).lastFrameTime = 1000 ∧
     (animate 1990 4 (animate 1001 3 (animate 16 2 (animate 0 1 stC3)))).currentFrame = 1 ∧
     (animate 1990 4 (animate 1001 3 (animate 16 2 (animate 0 1 stC3)))).lastFrameTime = 1000) := by
  constructor
  · intro st now delta nid hp hd
    subst hd
    constructor
    · intro h
      simp only [animate, hp, Bool.true_eq_false, if_false, if_pos h]
      refine ⟨?_, ?_⟩ <;> (split <;> rfl)
    · intro h
      have h2 : ¬ (st.frameInterval ≤ now - st.lastFrameTime) := not_le.mpr h
      simp only [animate, hp, Bool.true_eq_false, if_false, if_neg h2]
      refine ⟨?_, ?_⟩ <;> (split <;> rfl)
  · norm_num [animate, stC3, mkState, jsMod, jsRound, Int.tmod]

/-- C3 witness: the tick law applied at the concrete playing state of
scenario D and the tick at `t = 1001`, where `delta = 1001` has passed the
1000 ms interval, so the frame advances once. -/
theorem C3_onTick_witness :
    stC3.isPlaying = true ∧ (1001 : ℚ) - stC3.lastFrameTime = 1001 ∧
      stC3.frameInterval ≤ 1001 ∧
      ((animate 1001 1 stC3).currentFrame = Int.tmod (stC3.currentFrame + 1) stC3.totalFrames ∧
       (animate 1001 1 stC3).lastFrameTime = 1001 - jsMod 1001 stC3.frameInterval) :=
  ⟨rfl, by simp [stC3, mkState], by decide,
    (C3_onTick.1 stC3 1001 1001 1 rfl (by simp [stC3, mkState])).1 (by decide)⟩

/-- C4 counterexample: on a 100x100 sheet, a manual grid of one 10000x10000
frame exceeds the sheet bounds (`offsetX + cols * (frameWidth + spacingX) =
10000 > 100`), yet `setManualGrid` accepts it and returns `true` — it is not
rejected, and no `LayoutOutOfBounds` failure exists in the code. -/
theorem C4_counterexample :
    (mkState 100 100 8).sheetWidth < 0 + 1 * (10000 + 0) ∧
    (setManualGrid 1 1 10000 10000 0 0 0 0 (mkState 100 100 8)).1 = true := by decide

/-- C4 (amended): `setManualGrid` performs no bounds check against the sheet
at all: whenever the four structural parameters are at least `1` it succeeds,
even when the computed rectangles exceed the sheet horizontally or
vertically. -/
theorem C4_no_bounds_check (st : AnimState) (tf c fw fh ox oy sx sy : Int)
    (h1 : 1 ≤ tf) (h2 : 1 ≤ c) (h3 : 1 ≤ fw) (h4 : 1 ≤ fh)
    (_hoob : st.sheetWidth < ox + c * (fw + sx) ∨
      st.sheetHeight < oy + ⌈(tf : ℚ) / (c : ℚ)⌉ * (fh + sy)) :
    (setManualGrid tf c fw fh ox oy sx sy st).1 = true := by
  rw [setManualGrid, if_neg (by omega)]

/-- C4 witness: the out-of-bounds acceptance law at the concrete grid of the
counterexample. -/
theorem C4_no_bounds_check_witness :
    ((mkState 100 100 8).sheetWidth < 0 + 1 * (10000 + 0)) ∧
    (setManualGrid 1 1 10000 10000 0 0 0 0 (mkState 100 100 8)).1 = true :=
  ⟨by decide,
    C4_no_bounds_check (mkState 100 100 8) 1 1 10000 10000 0 0 0 0 (by decide) (by decide)
      (by decide) (by decide) (Or.inl (by decide))⟩

/-- C5: `setManualGrid` succeeds exactly when `totalFrames`, `cols`,
`frameWidth` and `frameHeight` are all at least `1`; on success the row count
is `Math.ceil(totalFrames / cols)`; on failure the state is returned
untouched.  The scenario conjuncts check scenario E,
`setManualGrid(5, 2, 10, 10, 0, 0, 0, 0)` succeeding with `rows = 3`, and the
invalid call `setManualGrid(0, 1, 10, 10, 0, 0, 0, 0)` failing with the
state unchanged. -/
theorem C5_applyManualGrid :
    (∀ (st : AnimState) (tf c fw fh ox oy sx sy : Int),
        ((setManualGrid tf c fw fh ox oy sx sy st).1 = true ↔
          (1 ≤ tf ∧ 1 ≤ c ∧ 1 ≤ fw ∧ 1 ≤ fh)) ∧
        ((setManualGrid tf c fw fh ox oy sx sy st).1 = true →
          (setManualGrid tf c fw fh ox oy sx sy st).2.framesPerCol = ⌈(tf : ℚ) / (c : ℚ)⌉) ∧
        ((setManualGrid tf c fw fh ox oy sx sy st).1 = false →
          (setManualGrid tf c fw fh ox oy sx sy st).2 = st)) ∧
    (setManualGrid 5 2 10 10 0 0 0 0 (mkState 100 100 8)).1 = true ∧
    (setManualGrid 5 2 10 10 0 0 0 0 (mkState 100 100 8)).2.framesPerCol = 3 ∧
    (setManualGrid 0 1 10 10 0 0 0 0 (mkState 100 100 8)).1 = false ∧
    (setManualGrid 0 1 10 10 0 0 0 0 (mkState 100 100 8)).2 = mkState 100 100 8 := by
  refine ⟨fun st tf c fw fh ox oy sx sy =>
    ⟨setManualGrid_succeeds_iff tf c fw fh ox oy sx sy st, ?_, ?_⟩, ?_, ?_, ?_, ?_⟩
  · rw [setManualGrid]
    split
    · intro h
      exact absurd h (by simp)
    · intro _
      rfl
  · rw [setManualGrid]
    split
    · intro _
      rfl
    · intro h
      exact absurd h (by simp)
  · decide
  · rw [setManualGrid]
    norm_num [Int.ceil_eq_iff]
  · decide
  · rfl

/-- C5 witness: the success law applied to the concrete grid of scenario E,
`setManualGrid(5, 2, 10, 10, 0, 0, 0, 0)`. -/
theorem C5_applyManualGrid_witness :
    (1 ≤ (5 : Int) ∧ 1 ≤ (2 : Int) ∧ 1 ≤ (10 : Int) ∧ 1 ≤ (10 : Int)) ∧
    (setManualGrid 5 2 10 10 0 0 0 0 (mkState 100 100 8)).1 = true ∧
    (setManualGrid 5 2 10 10 0 0 0 0 (mkState 100 100 8)).2.framesPerCol =
      ⌈(5 : ℚ) / (2 : ℚ)⌉ :=
  ⟨by decide,
    (C5_applyManualGrid.1 (mkState 100 100 8) 5 2 10 10 0 0 0 0).1.mpr (by decide),
    (C5_applyManualGrid.1 (mkState 100 100 8) 5 2 10 10 0 0 0 0).2.1
      ((C5_applyManualGrid.1 (mkState 100 100 8) 5 2 10 10 0 0 0 0).1.mpr (by decide))⟩

/-- C6 counterexample: for `totalFrames = 0` the loop in `findBestGridLayout`
never runs, the candidate list is empty, `layouts[0]` is `undefined`, and
`detectSpriteLayout` dereferences it and throws a `TypeError` (modelled
`none`): there is no named `InvalidFrameCount` failure anywhere in the code,
so the claim that detection reports a distinguishable error value is false. -/
theorem C6_counterexample :
    gridCandidates 0 1024 512 = [] ∧ findBestGridLayout 0 1024 512 = none ∧
    detectSpriteLayout (mkState 1024 512 0) = none := by decide

/-- C6 (amended): for every `totalFrames < 1` the candidate enumeration is
empty and `detectSpriteLayout` crashes with an uncaught `TypeError` on
`bestLayout.cols` (modelled as `none`, before any state mutation); the code
has no `InvalidFrameCount` error value to report. -/
theorem C6_detect_crash (st : AnimState) (h : st.totalFrames < 1) :
    detectSpriteLayout st = none := by
  have ht : st.totalFrames.toNat = 0 := Int.toNat_of_nonpos (by omega)
  simp [detectSpriteLayout, findBestGridLayout, gridCandidates, ht, chooseBest]

/-- C6 witness: the crash law at the concrete state with `totalFrames = 0`. -/
theorem C6_detect_crash_witness :
    (mkState 1024 512 0).totalFrames < 1 ∧ detectSpriteLayout (mkState 1024 512 0) = none :=
  ⟨by decide, C6_detect_crash (mkState 1024 512 0) (by decide)⟩

/-- C7 counterexample: applying the manual grid `setManualGrid(6, 3, 100,
100, 0, 0, 0, 0)` to a state whose current frame index `1` is still in range
under the new `totalFrames = 6` does not keep that index: it is reset to `0`,
so the claimed clamping re-validation (keep a still-valid index) is false. -/
theorem C7_counterexample :
    (setManualGrid 6 3 100 100 0 0 0 0 stC7).1 = true ∧
    0 ≤ stC7.currentFrame ∧
    stC7.currentFrame < (setManualGrid 6 3 100 100 0 0 0 0 stC7).2.totalFrames ∧
    (setManualGrid 6 3 100 100 0 0 0 0 stC7).2.currentFrame ≠ stC7.currentFrame := by decide

/-- C7 (amended): on every successful manual grid apply the current frame
index is unconditionally reset to `0` (which is in range, since the new
`totalFrames` is positive), and `triggerAutoDetect` leaves both the current
frame index and `totalFrames` unchanged; no clamping re-validation occurs.
The scenario conjunct shows auto-detection on the default sheet preserving a
current frame index of `3`. -/
theorem C7_reset_not_clamp :
    (∀ (st : AnimState) (tf c fw fh ox oy sx sy : Int),
        (setManualGrid tf c fw fh ox oy sx sy st).1 = true →
        (setManualGrid tf c fw fh ox oy sx sy st).2.currentFrame = 0 ∧
        0 < (setManualGrid tf c fw fh ox oy sx sy st).2.totalFrames) ∧
    (∀ st : AnimState,
        (triggerAutoDetect st).map (fun s => (s.currentFrame, s.totalFrames)) =
          (triggerAutoDetect st).map (fun _ => (st.currentFrame, st.totalFrames))) ∧
    (triggerAutoDetect { mkState 1024 512 8 with currentFrame := 3 }).map
        (fun s => (s.currentFrame, s.totalFrames)) = some (3, 8) := by
  refine ⟨?_, ?_, ?_⟩
  · intro st tf c fw fh ox oy sx sy hs
    have hv : ¬(tf < 1 ∨ c < 1 ∨ fw < 1 ∨ fh < 1) := by
      intro hcon
      rw [setManualGrid, if_pos hcon] at hs
      exact absurd hs (by simp)
    rw [setManualGrid, if_neg hv]
    refine ⟨rfl, ?_⟩
    show (0 : Int) < tf
    push_neg at hv
    omega
  · intro st
    rw [triggerAutoDetect, detectSpriteLayout]
    cases findBestGridLayout st.totalFrames st.sheetWidth st.sheetHeight <;> simp
  · rw [triggerAutoDetect, detectSpriteLayout]
    rw [show ({ mkState 1024 512 8 with currentFrame := 3, autoDetect := true } :
        AnimState).totalFrames = 8 from rfl,
      show ({ mkState 1024 512 8 with currentFrame := 3, autoDetect := true } :
        AnimState).sheetWidth = 1024 from rfl,
      show ({ mkState 1024 512 8 with currentFrame := 3, autoDetect := true } :
        AnimState).sheetHeight = 512 from rfl, findBestGridLayout_eight]
    rfl

/-- C7 witness: the reset law at the concrete grid apply of the
counterexample state, and the auto-detect preservation law at the default
state. -/
theorem C7_reset_not_clamp_witness :
    ((setManualGrid 6 3 100 100 0 0 0 0 stC7).1 = true) ∧
    (setManualGrid 6 3 100 100 0 0 0 0 stC7).2.currentFrame = 0 ∧
    ((triggerAutoDetect (mkState 1024 512 8)).map (fun s => (s.currentFrame, s.totalFrames)) =
      (triggerAutoDetect (mkState 1024 512 8)).map
        (fun _ => ((mkState 1024 512 8).currentFrame, (mkState 1024 512 8).totalFrames))) :=
  ⟨by decide, (C7_reset_not_clamp.1 stC7 6 3 100 100 0 0 0 0 (by decide)).1,
    C7_reset_not_clamp.2.1 (mkState 1024 512 8)⟩

/-- C8: for every state with a positive frame count and an in-range current
index, `nextFrame` advances to `(currentFrame + 1) mod totalFrames` and
`prevFrame` retreats to `(currentFrame - 1 + totalFrames) mod totalFrames`;
both results stay in `[0, totalFrames)`; stepping forward from the last frame
wraps to `0`, and stepping backward from `0` wraps to `totalFrames - 1`. -/
theorem C8_stepWrap (st : AnimState) (h1 : 1 ≤ st.totalFrames)
    (h2 : 0 ≤ st.currentFrame) (_h3 : st.currentFrame < st.totalFrames) :
    (nextFrame st).currentFrame = (st.currentFrame + 1) % st.totalFrames ∧
    (prevFrame st).currentFrame = (st.currentFrame - 1 + st.totalFrames) % st.totalFrames ∧
    (0 ≤ (nextFrame st).currentFrame ∧ (nextFrame st).currentFrame < st.totalFrames) ∧
    (0 ≤ (prevFrame st).currentFrame ∧ (prevFrame st).currentFrame < st.totalFrames) ∧
    (st.currentFrame = st.totalFrames - 1 → (nextFrame st).currentFrame = 0) ∧
    (st.currentFrame = 0 → (prevFrame st).currentFrame = st.totalFrames - 1) := by
  have e1 : Int.tmod (st.currentFrame + 1) st.totalFrames =
      (st.currentFrame + 1) % st.totalFrames := Int.tmod_eq_emod (by omega) (by omega)
  have e2 : Int.tmod (st.currentFrame - 1 + st.totalFrames) st.totalFrames =
      (st.currentFrame - 1 + st.totalFrames) % st.totalFrames :=
    Int.tmod_eq_emod (by omega) (by omega)
  simp only [nextFrame, prevFrame, e1, e2]
  have hne : st.totalFrames ≠ 0 := by omega
  have hpos : 0 < st.totalFrames := by omega
  refine ⟨trivial, trivial, ⟨Int.emod_nonneg _ hne, Int.emod_lt_of_pos _ hpos⟩,
    ⟨Int.emod_nonneg _ hne, Int.emod_lt_of_pos _ hpos⟩, ?_, ?_⟩
  · intro hl
    rw [hl]
    simp
  · intro hl
    rw [hl]
    rw [show (0 : Int) - 1 + st.totalFrames = st.totalFrames - 1 by ring]
    exact Int.emod_eq_of_lt (by omega) (by omega)

/-- C8 witness: the stepping law at a concrete state on the last of eight
frames, where `nextFrame` wraps. -/
theorem C8_stepWrap_witness :
    (1 ≤ stC8.totalFrames ∧ 0 ≤ stC8.currentFrame ∧ stC8.currentFrame < stC8.totalFrames) ∧
    (nextFrame stC8).currentFrame = (stC8.currentFrame + 1) % stC8.totalFrames ∧
    (stC8.currentFrame = stC8.totalFrames - 1 → (nextFrame stC8).currentFrame = 0) :=
  ⟨by decide,
    (C8_stepWrap stC8 (by decide) (by decide) (by decide)).1,
    (C8_stepWrap stC8 (by decide) (by decide) (by decide)).2.2.2.2.1⟩

/-- C9: `setFPS` clamps every input into `[1, 60]` via
`Math.max(1, Math.min(60, fps))`, recomputes `frameInterval = 1000 / fps`,
and leaves `lastFrameTime`, the current frame index and the play/pause flag
unchanged; in particular `setFPS 120` yields `fps = 60` and `setFPS 0` yields
`fps = 1`. -/
theorem C9_setFPS_clamp :
    (∀ (st : AnimState) (v : ℚ),
      (setFPS v st).fps = max 1 (min 60 v) ∧
      1 ≤ (setFPS v st).fps ∧ (setFPS v st).fps ≤ 60 ∧
      (setFPS v st).frameInterval = 1000 / (setFPS v st).fps ∧
      (setFPS v st).lastFrameTime = st.lastFrameTime ∧
      (setFPS v st).currentFrame = st.currentFrame ∧
      (setFPS v st).isPlaying = st.isPlaying) ∧
    (setFPS 120 (mkState 1024 512 8)).fps = 60 ∧ (setFPS 0 (mkState 1024 512 8)).fps = 1 := by
  refine ⟨fun st v => ⟨rfl, le_max_left 1 _, max_le (by norm_num) (min_le_left 60 v),
    rfl, rfl, rfl, rfl⟩, ?_, ?_⟩ <;> norm_num [setFPS, max_def, min_def]

/-- C10: `pause` is idempotent: pausing twice leaves the whole state (the
play flag, the animation-frame handle, the frame index and all timestamps)
identical to pausing once. -/
theorem C10_pause_idempotent (st : AnimState) : pause (pause st) = pause st := by
  unfold pause
  cases h : st.animationId <;> simp [h]

end Frames
